import Mathlib

/-!
Shallow embedding of the loader and selection logic of `src/streamlit_app.py`
(a Streamlit dashboard over three semicolon-delimited CSV files).

The embedded pieces are:
* `load_data` (lines 10-54): chardet-based encoding detection over a
  10000-byte prefix, a `pd.read_csv(..., sep=';')` attempt with the detected
  encoding, a fallback chain utf-8 / cp1251 / latin1 entered on
  `UnicodeDecodeError`, then post-parse cleaning (strip column names, check
  for the `Name` column, strip `Name` values).
* `numeric_cols` / `available_years` (lines 102-108): year-column recognition.
* `year_columns` / `filtered_df` (lines 121, 143): the selection filter.
* the error checks of the render pass (lines 103-105 and 138-140).

External libraries (pandas, chardet) are not part of the repository, so their
calls are abstracted: a CSV file carries an abstract parse function
(modelling `pd.read_csv(file_name, sep=';', encoding=e)` on that file's
bytes) and a detector carries an abstract byte-statistics function
(modelling `chardet.detect`).  Tables are modelled at the string level: a
`Frame` is a list of column names plus a list of rows of cell strings, with
unique column labels (as produced by `pd.read_csv`, which de-duplicates
header names).  `st.error` + `st.stop` pairs are modelled as `Except`
errors, since they abort the current run.
-/

/-- Characters stripped by Python `str.strip()` restricted to the ASCII
whitespace handled by `Char.isWhitespace` (space, tab, CR, LF). -/
def stripChars (cs : List Char) : List Char :=
  ((cs.dropWhile Char.isWhitespace).reverse.dropWhile Char.isWhitespace).reverse

/-- Models Python `str.strip()` (used as `x.strip()` on column names and as
`.str.strip()` on the `Name` column). -/
def pyStrip (s : String) : String := ⟨stripChars s.data⟩

/-- Models Python `str.isdigit` on ASCII text: non-empty and all decimal
digits (used at line 102: `str(col).isdigit()`). -/
def pyIsdigit (s : String) : Bool := !s.data.isEmpty && s.data.all Char.isDigit

/-- Models Python `int()` on a string of decimal digits (line 108). -/
def digitsToNat (s : String) : Nat :=
  s.data.foldl (fun n c => 10 * n + (c.toNat - 48)) 0

/-- A parsed table: column labels plus rows of cell strings. -/
structure Frame where
  cols : List String
  rows : List (List String)
deriving DecidableEq

/-- Outcome classes of one `pd.read_csv(file_name, sep=';', encoding=e)`
call: success is carried by `Except.ok`; a failure is either a
`UnicodeDecodeError` (the only class the first `except` at line 29 catches)
or any other exception. -/
inductive ParseError where
  | unicodeDecodeError
  | otherError
deriving DecidableEq

/-- Errors with which `load_data` aborts the run: an uncaught parse
exception, the `st.error`/`st.stop` at lines 48-49 when the `Name` column is
missing (carrying the file name shown to the user), or the uncaught
`AttributeError` raised by `df['Name'].str` when stripping column names has
produced duplicate `Name` labels. -/
inductive LoadError where
  | parseError (e : ParseError)
  | schemaError (file_name : String)
  | duplicateNameColumn
deriving DecidableEq

/-- An input CSV file: its raw bytes, and the result of
`pd.read_csv(file_name, sep=';', encoding=e)` on it for each encoding label
(`none` models `chardet` returning no encoding). -/
structure CsvFile where
  bytes : List Nat
  parse : Option String → Except ParseError Frame

/-- The `chardet.detect` statistical detector, abstracted as a function from
the sampled bytes to the reported encoding label. -/
structure Detector where
  detect : List Nat → Option String

/-- Index of column `c` in the label list (first occurrence; labels are
unique in frames produced by `pd.read_csv`). -/
def colIndex (cols : List String) (c : String) : Nat :=
  cols.findIdx (fun x => x == c)

/-- Index of the `Name` column. -/
def nameIdx (cols : List String) : Nat := colIndex cols "Name"

/-- Cell of row `i` at column position `j` (empty string when out of
range). -/
def cell (f : Frame) (i j : Nat) : String :=
  (f.rows.getD i []).getD j ""

/-- One row after `df['Name'] = df['Name'].str.strip()`: the cell at the
`Name` column position is stripped, all others are untouched. -/
def stripNameCell (idx : Nat) (r : List String) : List String :=
  r.set idx (pyStrip (r.getD idx ""))

/-- Post-parse cleaning of `load_data`, lines 42-54: strip every column
name (`df.rename(columns=lambda x: x.strip())`), fail with the schema error
naming the file when `Name` is not among the stripped names (lines 47-49),
then strip every value of the `Name` column (line 52).  When stripping has
made `Name` ambiguous, `df['Name']` is a DataFrame and `.str` raises, which
aborts the run: modelled by `duplicateNameColumn`. -/
def clean (file_name : String) (f : Frame) : Except LoadError Frame :=
  if (f.cols.map pyStrip).contains "Name" then
    if (f.cols.map pyStrip).count "Name" = 1 then
      .ok { cols := f.cols.map pyStrip,
            rows := f.rows.map (stripNameCell (nameIdx (f.cols.map pyStrip))) }
    else
      .error .duplicateNameColumn
  else
    .error (.schemaError file_name)

/-- The bare-`except` fallback chain of lines 31-40: utf-8, then cp1251,
then latin1; any failure of the utf-8 or cp1251 attempt falls through, a
latin1 failure propagates. -/
def tryFallbacks (file : CsvFile) : Except ParseError Frame :=
  match file.parse (some "utf-8") with
  | .ok df => .ok df
  | .error _ =>
    match file.parse (some "cp1251") with
    | .ok df => .ok df
    | .error _ => file.parse (some "latin1")

/-- The parse stage of `load_data`, lines 21-40: detect an encoding from the
first 10000 bytes, attempt the parse with it, and enter the fallback chain
only on `UnicodeDecodeError`; any other exception propagates. -/
def rawParse (det : Detector) (file : CsvFile) : Except ParseError Frame :=
  match file.parse (det.detect (file.bytes.take 10000)) with
  | .ok df => .ok df
  | .error .unicodeDecodeError => tryFallbacks file
  | .error .otherError => .error .otherError

/-- `load_data` of lines 10-54: parse stage followed by cleaning. -/
def load_data (det : Detector) (file : CsvFile) (file_name : String) :
    Except LoadError Frame :=
  match rawParse det file with
  | .ok df => clean file_name df
  | .error e => .error (.parseError e)

/-- Line 102: `[col for col in df.columns if str(col).isdigit()]`. -/
def numeric_cols (f : Frame) : List String :=
  f.cols.filter (fun c => pyIsdigit c)

/-- Line 108: `[int(col) for col in numeric_cols]`. -/
def available_years (f : Frame) : List Nat :=
  (numeric_cols f).map digitsToNat

/-- Line 121: `[str(year) for year in range(year_range[0], year_range[1]+1)]`. -/
def year_columns (y0 y1 : Nat) : List String :=
  (List.range (y1 + 1 - y0)).map (fun k => toString (y0 + k))

/-- The `Name` value of a row (used by `df['Name'].isin(...)`). -/
def rowName (cols : List String) (r : List String) : String :=
  r.getD (nameIdx cols) ""

/-- Pandas column selection `df[cs]`: every requested label must be present,
otherwise a `KeyError` is raised (modelled as `none`); on success the result
has exactly the requested columns in the requested order. -/
def colSelect (f : Frame) (cs : List String) : Option Frame :=
  if cs.all (fun c => f.cols.contains c) then
    some { cols := cs,
           rows := f.rows.map (fun r => cs.map (fun c => r.getD (colIndex f.cols c) "")) }
  else
    none

/-- Line 143: `df[df['Name'].isin(selected_regions)][['Name'] + year_columns]`. -/
def filtered_df (f : Frame) (selected_regions : List String) (y0 y1 : Nat) :
    Option Frame :=
  colSelect
    { cols := f.cols,
      rows := f.rows.filter (fun r => selected_regions.contains (rowName f.cols r)) }
    ("Name" :: year_columns y0 y1)

/-- Errors that abort the render pass after loading: no year-like columns
(lines 103-105), empty region selection (lines 138-140), and the uncaught
pandas `KeyError` when a requested year column is absent (line 143). -/
inductive AppError where
  | emptyYearRange
  | emptySelection
  | missingYearColumn
deriving DecidableEq

/-- The error-relevant control flow of the script after a dataset is chosen
(lines 102-143): check that year columns exist, then that the selection is
non-empty, then filter; each failed check reports and stops, so nothing
after it runs. -/
def renderPass (df : Frame) (y0 y1 : Nat) (selected_regions : List String) :
    Except AppError Frame :=
  if (numeric_cols df).isEmpty then
    .error .emptyYearRange
  else if selected_regions.isEmpty then
    .error .emptySelection
  else
    match filtered_df df selected_regions y0 y1 with
    | some g => .ok g
    | none => .error .missingYearColumn

/-- A sample loaded table used to instantiate the general theorems. -/
def sampleFrame : Frame :=
  ⟨["Name", "2018", "2019", "2020"],
   [["Moscow", "1", "2", "3"], ["Kazan", "4", "5", "6"]]⟩

/-- A detector that always reports utf-8. -/
def sampleDetector : Detector := ⟨fun _ => some "utf-8"⟩

/-- A file whose parse succeeds under every encoding. -/
def sampleFile : CsvFile := ⟨[], fun _ => .ok sampleFrame⟩

/-- Dropping from the front of a list that is already dropped-from-the-front
changes nothing; the same holds for any prefix of it. -/
theorem dropWhile_eq_self_of_prefix {α : Type} (p : α → Bool) {l₁ l₂ : List α}
    (hpre : l₁ <+: l₂) (h : l₂.dropWhile p = l₂) : l₁.dropWhile p = l₁ := by
  cases l₁ with
  | nil => rfl
  | cons x xs =>
    obtain ⟨t, ht⟩ := hpre
    cases l₂ with
    | nil => simp at ht
    | cons y ys =>
      have hxy : x = y := by
        have hh := congrArg (fun l => l.headD x) ht
        simpa using hh
      have hpy : p y = false := by
        cases hy : p y with
        | false => rfl
        | true =>
          rw [List.dropWhile_cons, if_pos hy] at h
          have hlen := congrArg List.length h
          have hle := (List.dropWhile_suffix (l := ys) (p := p)).length_le
          simp at hlen
          omega
      rw [List.dropWhile_cons, hxy, hpy]
      simp

/-- Stripping is idempotent at the character-list level. -/
theorem stripChars_idem (cs : List Char) : stripChars (stripChars cs) = stripChars cs := by
  unfold stripChars
  have hAfix : (cs.dropWhile Char.isWhitespace).dropWhile Char.isWhitespace
      = cs.dropWhile Char.isWhitespace := List.dropWhile_idempotent _ _
  have hpre :
      ((cs.dropWhile Char.isWhitespace).reverse.dropWhile Char.isWhitespace).reverse
        <+: cs.dropWhile Char.isWhitespace := by
    have hsuf := List.dropWhile_suffix (l := (cs.dropWhile Char.isWhitespace).reverse)
      (p := Char.isWhitespace)
    have hp := List.reverse_prefix.mpr hsuf
    simpa using hp
  have hBfix :
      (((cs.dropWhile Char.isWhitespace).reverse.dropWhile Char.isWhitespace).reverse).dropWhile
          Char.isWhitespace
        = ((cs.dropWhile Char.isWhitespace).reverse.dropWhile Char.isWhitespace).reverse :=
    dropWhile_eq_self_of_prefix _ hpre hAfix
  rw [hBfix, List.reverse_reverse, List.dropWhile_idempotent]

/-- Python stripping is idempotent. -/
theorem pyStrip_idem (s : String) : pyStrip (pyStrip s) = pyStrip s :=
  congrArg String.mk (stripChars_idem s.data)

/-- Inversion of a successful `clean`. -/
theorem clean_ok_inv {file_name : String} {f g : Frame}
    (h : clean file_name f = .ok g) :
    ("Name" : String) ∈ f.cols.map pyStrip ∧
    g.cols = f.cols.map pyStrip ∧
    g.rows = f.rows.map (stripNameCell (nameIdx (f.cols.map pyStrip))) := by
  unfold clean at h
  split at h
  · split at h
    · injection h with h
      refine ⟨?_, ?_, ?_⟩
      · simp_all [List.elem_iff]
      · exact (congrArg Frame.cols h).symm
      · exact (congrArg Frame.rows h).symm
    · cases h
  · cases h

/-- Inversion of a successful `load_data`. -/
theorem load_data_ok_inv {det : Detector} {file : CsvFile} {file_name : String}
    {g : Frame} (h : load_data det file file_name = .ok g) :
    ∃ f, rawParse det file = .ok f ∧ clean file_name f = .ok g := by
  unfold load_data at h
  cases hr : rawParse det file with
  | ok f =>
    rw [hr] at h
    exact ⟨f, rfl, h⟩
  | error e =>
    rw [hr] at h
    cases h

/-- C1: for every input file and whichever encoding in the chain succeeds,
`load_data` strips every column name and then checks the identifier column:
when `Name` is absent from the stripped column set, cleaning fails with the
schema error naming the file (aborting the run); and when `load_data`
returns a table, `Name` is among its columns and every column name is fully
stripped. -/
theorem claim_C1 (det : Detector) (file : CsvFile) (file_name : String) :
    (∀ f : Frame, "Name" ∉ f.cols.map pyStrip →
        clean file_name f = .error (.schemaError file_name)) ∧
    (∀ g : Frame, load_data det file file_name = .ok g →
        "Name" ∈ g.cols ∧ ∀ c ∈ g.cols, pyStrip c = c) := by
  constructor
  · intro f hf
    unfold clean
    have hc : (f.cols.map pyStrip).contains "Name" = false := by
      simp [List.elem_iff]
      simpa using hf
    rw [hc]
    simp
  · intro g hg
    obtain ⟨f, _, hclean⟩ := load_data_ok_inv hg
    obtain ⟨hmem, hcols, _⟩ := clean_ok_inv hclean
    refine ⟨by rw [hcols]; exact hmem, ?_⟩
    intro c hc
    rw [hcols] at hc
    obtain ⟨c0, _, rfl⟩ := List.mem_map.mp hc
    exact pyStrip_idem c0

/-- C1 instantiated: a file whose stripped header lacks `Name` is rejected
with the schema error naming the file, and the sample load keeps `Name`
among fully stripped column names. -/
theorem claim_C1_witness :
    clean "budget.csv" ⟨["Region", "2018"], [["Moscow", "1"]]⟩
        = .error (.schemaError "budget.csv") ∧
    ("Name" ∈ sampleFrame.cols ∧ ∀ c ∈ sampleFrame.cols, pyStrip c = c) :=
  ⟨(claim_C1 sampleDetector sampleFile "budget.csv").1
      ⟨["Region", "2018"], [["Moscow", "1"]]⟩ (by decide),
   (claim_C1 sampleDetector sampleFile "budget.csv").2 sampleFrame rfl⟩

/-- A detector whose guess is not among the fallback encodings. -/
def failDetector : Detector := ⟨fun _ => some "ascii"⟩

/-- A file that decodes only under utf-8 and raises `UnicodeDecodeError`
under every other encoding. -/
def udecFile : CsvFile :=
  ⟨[1, 2, 3],
   fun e => if e = some "utf-8" then .ok sampleFrame else .error .unicodeDecodeError⟩

/-- A file whose parse raises a non-decode exception under every encoding
except utf-8. -/
def otherFile : CsvFile :=
  ⟨[],
   fun e => if e = some "utf-8" then .ok sampleFrame else .error .otherError⟩

/-- C2: `load_data` detects an encoding from the 10000-byte prefix only
(files agreeing on that prefix and on parsing load identically), parses with
the detected encoding, and on a decode error retries utf-8, then cp1251,
then latin1, in that order, returning the first success. -/
theorem claim_C2 (det : Detector) (f1 f2 file : CsvFile) (df : Frame)
    (file_name : String) :
    (f1.bytes.take 10000 = f2.bytes.take 10000 → f1.parse = f2.parse →
        load_data det f1 file_name = load_data det f2 file_name) ∧
    (file.parse (det.detect (file.bytes.take 10000)) = .ok df →
        rawParse det file = .ok df) ∧
    (file.parse (det.detect (file.bytes.take 10000)) = .error .unicodeDecodeError →
        (file.parse (some "utf-8") = .ok df → rawParse det file = .ok df) ∧
        (∀ e₁, file.parse (some "utf-8") = .error e₁ →
            (file.parse (some "cp1251") = .ok df → rawParse det file = .ok df) ∧
            (∀ e₂, file.parse (some "cp1251") = .error e₂ →
                rawParse det file = file.parse (some "latin1")))) := by
  refine ⟨?_, ?_, ?_⟩
  · intro hb hp
    unfold load_data rawParse tryFallbacks
    rw [hb, hp]
  · intro h
    unfold rawParse
    rw [h]
  · intro h
    refine ⟨?_, ?_⟩
    · intro hu
      unfold rawParse tryFallbacks
      rw [h, hu]
    · intro e₁ hu
      refine ⟨?_, ?_⟩
      · intro hc
        unfold rawParse tryFallbacks
        rw [h, hu, hc]
      · intro e₂ hc
        unfold rawParse tryFallbacks
        rw [h, hu, hc]

/-- C2 instantiated: with a misdetected encoding whose parse raises a decode
error, the utf-8 retry's result is returned. -/
theorem claim_C2_witness : rawParse failDetector udecFile = .ok sampleFrame :=
  ((claim_C2 failDetector udecFile udecFile udecFile sampleFrame "budget.csv").2.2
      rfl).1 rfl

/-- C9: when the first attempt fails with an exception other than
`UnicodeDecodeError`, the failure propagates out of `load_data` and neither
utf-8, cp1251 nor latin1 is tried (the result is this error no matter what
those parses would return). -/
theorem claim_C9 (det : Detector) (file : CsvFile) (file_name : String)
    (h : file.parse (det.detect (file.bytes.take 10000)) = .error .otherError) :
    rawParse det file = .error .otherError ∧
    load_data det file file_name = .error (.parseError .otherError) := by
  have hr : rawParse det file = .error .otherError := by
    unfold rawParse
    rw [h]
  refine ⟨hr, ?_⟩
  unfold load_data
  rw [hr]

/-- C9 instantiated: a non-decode failure of the detected-encoding attempt
aborts the load even though the utf-8 fallback would have succeeded. -/
theorem claim_C9_witness :
    load_data failDetector otherFile "budget.csv"
      = .error (.parseError .otherError) ∧
    otherFile.parse (some "utf-8") = .ok sampleFrame :=
  ⟨(claim_C9 failDetector otherFile "budget.csv" rfl).2, rfl⟩

/-- Stripping the empty string yields the empty string. -/
theorem pyStrip_empty : pyStrip "" = "" := rfl

/-- Effect of `stripNameCell` on one cell: the cell at the `Name` position
is stripped, every other cell is unchanged. -/
theorem stripNameCell_getD (idx j : Nat) (r : List String) :
    (stripNameCell idx r).getD j ""
      = if j = idx then pyStrip (r.getD j "") else r.getD j "" := by
  unfold stripNameCell
  by_cases h : j = idx
  · subst h
    rw [if_pos rfl]
    by_cases hlt : j < r.length
    · rw [List.getD_eq_getElem?_getD, List.getElem?_set_self hlt]
      rfl
    · rw [List.set_eq_of_length_le (Nat.le_of_not_lt hlt)]
      have hnone : r.getD j "" = "" := by
        rw [List.getD_eq_getElem?_getD,
          List.getElem?_eq_none_iff.mpr (Nat.le_of_not_lt hlt)]
        rfl
      rw [hnone]
      exact pyStrip_empty.symm
  · rw [if_neg h]
    calc (r.set idx (pyStrip (r.getD idx ""))).getD j ""
        = ((r.set idx (pyStrip (r.getD idx "")))[j]?).getD "" :=
          List.getD_eq_getElem?_getD _ _ _
      _ = (r[j]?).getD "" := by
          rw [List.getElem?_set_ne (fun hh => h hh.symm)]
      _ = r.getD j "" := (List.getD_eq_getElem?_getD _ _ _).symm

/-- Mapping a row transformation that fixes the empty row commutes with the
defaulted row lookup. -/
theorem getD_map_rows (h : List String → List String) (hnil : h [] = [])
    (l : List (List String)) (i : Nat) :
    (l.map h).getD i [] = h (l.getD i []) := by
  induction l generalizing i with
  | nil => simp [hnil]
  | cons x xs ih =>
    cases i with
    | zero => rfl
    | succ n => simpa using ih n

/-- The empty row is fixed by `stripNameCell`. -/
theorem stripNameCell_nil (idx : Nat) : stripNameCell idx [] = [] := by
  simp [stripNameCell, pyStrip_empty]

/-- Cell-level description of `clean`: the `Name` column is stripped, all
other columns are returned untouched. -/
theorem cell_of_clean {file_name : String} {f g : Frame}
    (hok : clean file_name f = .ok g) (i j : Nat) :
    cell g i j = if j = nameIdx g.cols then pyStrip (cell f i j) else cell f i j := by
  obtain ⟨_, hcols, hrows⟩ := clean_ok_inv hok
  unfold cell
  rw [hrows, getD_map_rows _ (stripNameCell_nil _), stripNameCell_getD, ← hcols]

/-- C3: in every loaded table the identifier values are stripped of leading
and trailing whitespace, so two source identifier values differing only in
surrounding whitespace coincide after loading. -/
theorem claim_C3 (file_name : String) (f g : Frame)
    (hok : clean file_name f = .ok g) :
    (∀ i, cell g i (nameIdx g.cols) = pyStrip (cell f i (nameIdx g.cols))) ∧
    (∀ i j, pyStrip (cell f i (nameIdx g.cols)) = pyStrip (cell f j (nameIdx g.cols)) →
        cell g i (nameIdx g.cols) = cell g j (nameIdx g.cols)) := by
  have h1 : ∀ i, cell g i (nameIdx g.cols) = pyStrip (cell f i (nameIdx g.cols)) := by
    intro i
    rw [cell_of_clean hok, if_pos rfl]
  refine ⟨h1, ?_⟩
  intro i j hh
  rw [h1 i, h1 j, hh]

/-- A raw table whose identifier cells differ only in whitespace. -/
def msRawFrame : Frame := ⟨["Name"], [[" Moscow "], ["Moscow"]]⟩

/-- The loaded form of `msRawFrame`. -/
def msCleanFrame : Frame := ⟨["Name"], [["Moscow"], ["Moscow"]]⟩

/-- C3 instantiated: `" Moscow "` and `"Moscow"` are identical after
loading. -/
theorem claim_C3_witness :
    cell msCleanFrame 0 (nameIdx msCleanFrame.cols)
      = cell msCleanFrame 1 (nameIdx msCleanFrame.cols) :=
  (claim_C3 "budget.csv" msRawFrame msCleanFrame rfl).2 0 1 (by decide)

/-- C10: the cleaning step changes only the column names (stripped) and the
`Name`-column values: the number of rows, each row's length, and every cell
outside the `Name` column are exactly those of the raw parse, in the same
order. -/
theorem claim_C10 (file_name : String) (f g : Frame)
    (hok : clean file_name f = .ok g) :
    g.cols = f.cols.map pyStrip ∧
    g.rows.length = f.rows.length ∧
    (∀ i, (g.rows.getD i []).length = (f.rows.getD i []).length) ∧
    (∀ i j, j ≠ nameIdx g.cols → cell g i j = cell f i j) := by
  obtain ⟨_, hcols, hrows⟩ := clean_ok_inv hok
  refine ⟨hcols, ?_, ?_, ?_⟩
  · rw [hrows, List.length_map]
  · intro i
    rw [hrows, getD_map_rows _ (stripNameCell_nil _)]
    unfold stripNameCell
    exact List.length_set _ _ _
  · intro i j hj
    rw [cell_of_clean hok, if_neg hj]

/-- A raw table with whitespace in a column name, the identifier, and a data
cell. -/
def rawPadFrame : Frame := ⟨[" Name ", "2018"], [[" Moscow ", " 7 "]]⟩

/-- The loaded form of `rawPadFrame`: the data cell keeps its padding. -/
def cleanPadFrame : Frame := ⟨["Name", "2018"], [["Moscow", " 7 "]]⟩

/-- C10 instantiated: the cell outside the `Name` column is untouched by
cleaning. -/
theorem claim_C10_witness :
    cell cleanPadFrame 0 1 = cell rawPadFrame 0 1 :=
  (claim_C10 "budget.csv" rawPadFrame cleanPadFrame rfl).2.2.2 0 1 (by decide)

/-- C4: the recognized year columns are exactly the columns whose name is a
non-empty string of decimal digits; on columns 2018, 2019, 2020, abc the
recognized year set is exactly 2018, 2019, 2020. -/
theorem claim_C4 (f : Frame) :
    (∀ c, c ∈ numeric_cols f ↔
        (c ∈ f.cols ∧ c.data ≠ [] ∧ ∀ ch ∈ c.data, ch.isDigit = true)) ∧
    available_years ⟨["2018", "2019", "2020", "abc"], []⟩ = [2018, 2019, 2020] := by
  constructor
  · intro c
    simp [numeric_cols, pyIsdigit, List.mem_filter, List.all_eq_true, and_assoc]
  · decide

/-- C4 instantiated: 2019 is recognized as a year column of the sample. -/
theorem claim_C4_witness : "2019" ∈ numeric_cols sampleFrame :=
  ((claim_C4 sampleFrame).1 "2019").mpr (by decide)

/-- Membership in the year-column label list built by line 121. -/
theorem mem_year_columns (y0 y1 : Nat) (c : String) :
    c ∈ year_columns y0 y1 ↔ ∃ y, y0 ≤ y ∧ y ≤ y1 ∧ c = toString y := by
  unfold year_columns
  rw [List.mem_map]
  constructor
  · rintro ⟨k, hk, rfl⟩
    rw [List.mem_range] at hk
    exact ⟨y0 + k, Nat.le_add_right _ _, by omega, rfl⟩
  · rintro ⟨y, h0, h1, rfl⟩
    refine ⟨y - y0, ?_, ?_⟩
    · rw [List.mem_range]
      omega
    · congr 1
      omega

/-- `contains` agrees with decidable membership. -/
theorem contains_eq (l : List String) (a : String) :
    l.contains a = decide (a ∈ l) := by
  by_cases h : a ∈ l
  · rw [decide_eq_true h]
    exact List.elem_iff.mpr h
  · rw [decide_eq_false h]
    cases hc : l.contains a with
    | false => rfl
    | true => exact absurd (List.elem_iff.mp hc) h

/-- Column selection succeeds and keeps exactly the requested columns when
every requested label is present. -/
theorem colSelect_ok (f : Frame) (cs : List String)
    (h : ∀ c ∈ cs, c ∈ f.cols) :
    colSelect f cs
      = some { cols := cs,
               rows := f.rows.map
                 (fun r => cs.map (fun c => r.getD (colIndex f.cols c) "")) } := by
  have hall : cs.all (fun c => f.cols.contains c) = true := by
    rw [List.all_eq_true]
    intro c hc
    exact List.elem_iff.mpr (h c hc)
  unfold colSelect
  rw [if_pos hall]

/-- C5 counterexample: on a dataset whose year columns are 2018 and 2020
with a gap at 2019, selecting the range 2018-2020 with a matching entity
does not produce the claimed sub-table: the column lookup fails (pandas
`KeyError` on the absent column `"2019"`). -/
theorem claim_C5_counterexample :
    filtered_df ⟨["Name", "2018", "2020"], [["A", "1", "2"]]⟩ ["A"] 2018 2020
      = none := by decide

/-- C5 (amended): provided every year of the inclusive range `[y0, y1]`
occurs as a column of the dataset (as happens for the slider's range over
contiguous year columns) and the identifier column is present, the filter
produces the sub-table with exactly the rows whose identifier is chosen and
exactly the identifier column plus the year columns `y0..y1`; the year
labels are exactly the decimal strings of the years in the range, and
selecting `[2019, 2019]` yields the single year column `"2019"`. -/
theorem claim_C5 (f : Frame) (sel : List String) (y0 y1 : Nat)
    (hname : "Name" ∈ f.cols)
    (hyears : ∀ y : Nat, y0 ≤ y → y ≤ y1 → toString y ∈ f.cols) :
    filtered_df f sel y0 y1
      = some { cols := "Name" :: year_columns y0 y1,
               rows := (f.rows.filter
                   (fun r => sel.contains (rowName f.cols r))).map
                 (fun r => ("Name" :: year_columns y0 y1).map
                   (fun c => r.getD (colIndex f.cols c) "")) } ∧
    (∀ c, c ∈ year_columns y0 y1 ↔ ∃ y, y0 ≤ y ∧ y ≤ y1 ∧ c = toString y) ∧
    year_columns 2019 2019 = ["2019"] := by
  refine ⟨?_, fun c => mem_year_columns y0 y1 c, by decide⟩
  unfold filtered_df
  refine colSelect_ok _ _ ?_
  intro c hc
  rcases List.mem_cons.mp hc with h | h
  · rw [h]
    exact hname
  · obtain ⟨y, h0, h1, rfl⟩ := (mem_year_columns y0 y1 c).mp h
    exact hyears y h0 h1

/-- C5 (amended) instantiated: the range `[2019, 2019]` on the sample
dataset with years 2018-2020 keeps exactly the year column `"2019"`. -/
theorem claim_C5_witness :
    filtered_df sampleFrame ["Moscow"] 2019 2019
      = some ⟨["Name", "2019"], [["Moscow", "2"]]⟩ := by
  have hy : ∀ y : Nat, 2019 ≤ y → y ≤ 2019 → toString y ∈ sampleFrame.cols := by
    intro y h1 h2
    have hy19 : y = 2019 := Nat.le_antisymm h2 h1
    subst hy19
    decide
  have h := (claim_C5 sampleFrame ["Moscow"] 2019 2019 (by decide) hy).1
  exact h.trans (by decide)

/-- C6: filtering with one present and one absent identifier returns
exactly the rows of the present one, with no error; and when no chosen
entity matches, the filter returns an empty table rather than failing. -/
theorem claim_C6 (f : Frame) (p q : String) (y0 y1 : Nat)
    (hname : "Name" ∈ f.cols)
    (hyears : ∀ y : Nat, y0 ≤ y → y ≤ y1 → toString y ∈ f.cols)
    (hq : ∀ r ∈ f.rows, rowName f.cols r ≠ q) :
    (filtered_df f [p, q] y0 y1 = filtered_df f [p] y0 y1 ∧
     (filtered_df f [p, q] y0 y1).isSome = true) ∧
    (∀ sel : List String, (∀ r ∈ f.rows, rowName f.cols r ∉ sel) →
        filtered_df f sel y0 y1 = some ⟨"Name" :: year_columns y0 y1, []⟩) := by
  have hall : ∀ c ∈ ("Name" :: year_columns y0 y1), c ∈ f.cols := by
    intro c hc
    rcases List.mem_cons.mp hc with h | h
    · rw [h]
      exact hname
    · obtain ⟨y, h0, h1, rfl⟩ := (mem_year_columns y0 y1 c).mp h
      exact hyears y h0 h1
  have hpq : filtered_df f [p, q] y0 y1 = filtered_df f [p] y0 y1 := by
    unfold filtered_df
    have hpred : ∀ r ∈ f.rows,
        ([p, q].contains (rowName f.cols r)) = ([p].contains (rowName f.cols r)) := by
      intro r hr
      rw [contains_eq, contains_eq, decide_eq_decide]
      simp [hq r hr]
    rw [List.filter_congr hpred]
  refine ⟨⟨hpq, ?_⟩, ?_⟩
  · unfold filtered_df
    rw [colSelect_ok
      ⟨f.cols, f.rows.filter (fun r => [p, q].contains (rowName f.cols r))⟩
      ("Name" :: year_columns y0 y1) hall]
    rfl
  · intro sel hsel
    unfold filtered_df
    have hempty : f.rows.filter (fun r => sel.contains (rowName f.cols r)) = [] := by
      rw [List.filter_eq_nil_iff]
      intro r hr
      simp [contains_eq, hsel r hr]
    rw [hempty, colSelect_ok ⟨f.cols, []⟩ ("Name" :: year_columns y0 y1) hall]
    rfl

/-- C6 instantiated: filtering the sample for Moscow plus a region absent
from the data returns exactly the Moscow filter result, and a selection
matching nothing yields the empty table. -/
theorem claim_C6_witness :
    filtered_df sampleFrame ["Moscow", "SPb"] 2018 2020
      = filtered_df sampleFrame ["Moscow"] 2018 2020 ∧
    filtered_df sampleFrame ["Volga", "Don"] 2018 2020
      = some ⟨"Name" :: year_columns 2018 2020, []⟩ := by
  have hy : ∀ y : Nat, 2018 ≤ y → y ≤ 2020 → toString y ∈ sampleFrame.cols := by
    intro y h1 h2
    interval_cases y <;> decide
  have h := claim_C6 sampleFrame "Moscow" "SPb" 2018 2020 (by decide) hy (by decide)
  exact ⟨h.1.1, h.2 ["Volga", "Don"] (by decide)⟩

/-- C7: once a dataset with at least one year column is displayed, an empty
region selection makes the render pass stop with the empty-selection error
before the filter runs, and nothing is rendered. -/
theorem claim_C7 (df : Frame) (y0 y1 : Nat) (h : numeric_cols df ≠ []) :
    renderPass df y0 y1 [] = .error .emptySelection ∧
    ∀ g, renderPass df y0 y1 [] ≠ .ok g := by
  obtain ⟨x, xs, hne⟩ : ∃ x xs, numeric_cols df = x :: xs := by
    cases hcc : numeric_cols df with
    | nil => exact absurd hcc h
    | cons a as => exact ⟨a, as, rfl⟩
  have h1 : renderPass df y0 y1 [] = .error .emptySelection := by
    unfold renderPass
    rw [hne]
    rfl
  refine ⟨h1, fun g hg => ?_⟩
  rw [h1] at hg
  exact Except.noConfusion hg

/-- C7 instantiated: the sample dataset with an empty selection stops with
the empty-selection error. -/
theorem claim_C7_witness :
    renderPass sampleFrame 2018 2020 [] = .error .emptySelection :=
  (claim_C7 sampleFrame 2018 2020 (by decide)).1

/-- A dataset with no year-like column. -/
def noYearFrame : Frame := ⟨["Name", "abc"], [["Moscow", "x"]]⟩

/-- C8: a dataset with zero year-like columns makes the render pass stop
with the empty-year-range error, whatever the requested range and
selection; nothing is rendered. -/
theorem claim_C8 (df : Frame) (y0 y1 : Nat) (sel : List String)
    (h : numeric_cols df = []) :
    renderPass df y0 y1 sel = .error .emptyYearRange ∧
    ∀ g, renderPass df y0 y1 sel ≠ .ok g := by
  have h1 : renderPass df y0 y1 sel = .error .emptyYearRange := by
    unfold renderPass
    rw [h]
    rfl
  refine ⟨h1, fun g hg => ?_⟩
  rw [h1] at hg
  exact Except.noConfusion hg

/-- C8 instantiated: a dataset whose only non-identifier column is `abc`
aborts the render pass with the empty-year-range error. -/
theorem claim_C8_witness :
    renderPass noYearFrame 2018 2020 ["Moscow"] = .error .emptyYearRange :=
  (claim_C8 noYearFrame 2018 2020 ["Moscow"] rfl).1
